import Mathlib

/-!
Verification of the turn-streaming / tool-catalog layer of a Next.js
chat application against its natural-language design specification.

The development shallowly embeds the TypeScript sources:
* the SSE event translator of the turn-response route (two route
  variants appear in the repository; both are embedded),
* the MCP server configuration module (validation, enabled-server
  selection),
* the tools store operations (update / toggle of MCP servers),
* the tool catalog builder `getTools`,
* the approval gate (modelled from the spec; its implementation is not
  among the provided sources).

JavaScript truthiness on optional string fields is made explicit via
`strTruthy`; fallible/optional object fields become `Option`.
-/


/-- JS truthiness of an optional string field: `undefined` and `""` are
falsy, every other string is truthy. -/
def strTruthy : Option String → Bool
  | none => false
  | some s => s != ""

/-- JS `String.prototype.startsWith`, computed on the character lists of
the two strings. -/
def jsStartsWith (s pre : String) : Bool :=
  pre.data.isPrefixOf s.data

/-- JS `String.prototype.trim`: strip whitespace from both ends. -/
def jsTrim (s : String) : String :=
  ⟨((s.data.dropWhile Char.isWhitespace).reverse.dropWhile Char.isWhitespace).reverse⟩

/-- Worker for `jsSplitComma`: `acc` holds the (reversed) characters of
the segment currently being read. -/
def jsSplitCommaAux : List Char → List Char → List String
  | [], acc => [⟨acc.reverse⟩]
  | c :: cs, acc =>
    if c = ',' then (⟨acc.reverse⟩ : String) :: jsSplitCommaAux cs []
    else jsSplitCommaAux cs (c :: acc)

/-- JS `String.prototype.split(",")`. -/
def jsSplitComma (s : String) : List String :=
  jsSplitCommaAux s.data []

/- ### Upstream stream events (route `app/api/turn_response`) -/

/-- The `error` object optionally carried by a `response.failed` upstream
event; only its `message` field is read by the route. -/
structure UpstreamError where
  message : Option String
deriving DecidableEq

/-- A raw upstream stream event as consumed by the turn route: its string
discriminant `type` and the payload fields the route reads (`error`,
`delta`, `text`, `usage`).  The `usage` payload is never inspected, only
forwarded, so it is kept opaque as a string. -/
structure StreamEvent where
  type : String
  error : Option UpstreamError := none
  delta : Option String := none
  text : Option String := none
  usage : Option String := none
deriving DecidableEq

/-- The `data` payload of a downstream SSE frame, one constructor per
distinct object shape built by the route:
`raw e` is the upstream event forwarded unchanged,
`finishStop` is the object with finish_reason stop,
`toolCalls e` is `{tool_calls: event}`,
`usagePayload u` is `{usage: event.usage || {}}`,
`errorData err det` is `{error: err, details: det}`,
`textDelta d id` is `{delta: d, item_id: id}`. -/
inductive FrameData where
  | raw (e : StreamEvent)
  | finishStop
  | toolCalls (e : StreamEvent)
  | usagePayload (u : String)
  | errorData (error details : String)
  | textDelta (delta itemId : String)
deriving DecidableEq

/-- One downstream SSE frame `data: {"event": ..., "data": ...}`. -/
structure Frame where
  event : String
  data : FrameData
deriving DecidableEq

/-- The `details` string of the frame emitted for a `response.failed`
upstream event: the optionally-chained upstream error message, with the
generic fallback Unknown error substituted when that is falsy. -/
def failedDetails (e : StreamEvent) : String :=
  match e.error with
  | some err =>
    match err.message with
    | some m => if m == "" then "Unknown error" else m
    | none => "Unknown error"
  | none => "Unknown error"

/-- The first truthy of the two optional text fields, else the empty
string (JS `eventData.delta || eventData.text` with empty fallback). -/
def deltaOrText (e : StreamEvent) : String :=
  if strTruthy e.delta then e.delta.getD ""
  else if strTruthy e.text then e.text.getD ""
  else ""

/-- The loop body of the first turn route's `ReadableStream`: the
if/else-if chain translating one upstream event into the one SSE frame
enqueued for it.  `now` stands for `Date.now()` used to mint the
`item_id` of synthesized text-delta frames. -/
def translateEvent (now : Nat) (e : StreamEvent) : Frame :=
  if e.type == "response.output_item.added" then
    ⟨"response.output_item.added", .raw e⟩
  else if e.type == "response.output_item.done" then
    ⟨"response.output_item.done", .finishStop⟩
  else if e.type == "response.content_part.added" then
    ⟨"response.content_part.added", .raw e⟩
  else if e.type == "response.content_part.done" then
    ⟨"response.content_part.done", .raw e⟩
  else if jsStartsWith e.type "response.reasoning" then
    ⟨e.type, .raw e⟩
  else if jsStartsWith e.type "response.function_call" then
    ⟨"response.tool_calls.delta", .toolCalls e⟩
  else if e.type == "response.completed" then
    ⟨"response.completed", .usagePayload (e.usage.getD "\x7b\x7d")⟩
  else if e.type == "response.failed" then
    ⟨"error", .errorData "Response failed" (failedDetails e)⟩
  else if strTruthy e.delta || strTruthy e.text then
    ⟨"response.output_text.delta", .textDelta (deltaOrText e) ("msg_" ++ toString now)⟩
  else
    ⟨e.type, .raw e⟩

/-- The discriminants the first route's chain tests against the event's
`type` field (the delta/text catch-all inspects payload fields, not the
discriminant, and is therefore not part of this set). -/
def recognizedDiscriminant (t : String) : Bool :=
  t == "response.output_item.added" || t == "response.output_item.done" ||
  t == "response.content_part.added" || t == "response.content_part.done" ||
  jsStartsWith t "response.reasoning" || jsStartsWith t "response.function_call" ||
  t == "response.completed" || t == "response.failed"

/-- An item of the SSE response body: an event frame or the terminating
sentinel `data: [DONE]\n\n`. -/
inductive SSEItem where
  | frame (f : Frame)
  | done
deriving DecidableEq

/-- First route, successful streaming path: one frame per upstream event
followed by the `[DONE]` sentinel. -/
def route1Stream (now : Nat) (events : List StreamEvent) : List SSEItem :=
  events.map (fun e => SSEItem.frame (translateEvent now e)) ++ [SSEItem.done]

/-- First route, request-level error path (outer `catch`): a single error
frame followed by the `[DONE]` sentinel. -/
def route1RequestError (msg : String) : List SSEItem :=
  [SSEItem.frame ⟨"error", .errorData "Internal server error" msg⟩, SSEItem.done]

/-- First route, mid-stream error path (`catch` inside `start`): the
frames already emitted, then an error frame; the controller is closed
without the `[DONE]` sentinel. -/
def route1MidStreamError (now : Nat) (processed : List StreamEvent) (msg : String) :
    List SSEItem :=
  processed.map (fun e => SSEItem.frame (translateEvent now e)) ++
    [SSEItem.frame ⟨"error", .errorData "Streaming failed" msg⟩]

/-- Second route variant: every upstream event is forwarded verbatim as
`{event: event.type, data: event}` and the controller closes with no
sentinel frame. -/
def route2Stream (events : List StreamEvent) : List SSEItem :=
  events.map (fun e => SSEItem.frame ⟨e.type, .raw e⟩)

/- ### MCP server configuration (`config/mcp-servers.ts`) -/

/-- The three declared connection types of an MCP server. -/
inductive McpServerType where
  | docker
  | query_api
  | remote_pipedream
deriving DecidableEq

/-- Authentication options of an MCP server; every field is optional. -/
structure McpAuthConfig where
  github_token : Option String := none
  github_toolsets : Option String := none
  github_read_only : Option Bool := none
  query_api_key : Option String := none
  supabase_url : Option String := none
  supabase_anon_key : Option String := none
  supabase_service_role_key : Option String := none
  pipedream_api_key : Option String := none
  custom_headers : Option (List (String × String)) := none
deriving DecidableEq

/-- Configuration record of one MCP server. -/
structure McpServerConfig where
  id : String
  name : String
  description : String := ""
  type : McpServerType
  server_url : Option String := none
  docker_image : Option String := none
  app_slug : Option String := none
  enabled : Bool
  skip_approval : Bool
  allowed_tools : String
  auth_config : McpAuthConfig
  required_env_vars : List String := []
  optional_env_vars : List String := []
deriving DecidableEq

/-- Function `getEnabledServers`: the servers whose `enabled` flag is set. -/
def getEnabledServers (servers : List McpServerConfig) : List McpServerConfig :=
  servers.filter (fun server => server.enabled)

/-- The errors contributed by one entry of `required_env_vars` in
`validateServerConfig`: the loop body special-cases exactly the GitHub
token of docker servers and the query API key of query-API servers. -/
def envVarErrorsFor (server : McpServerConfig) (envVar : String) : List String :=
  (if server.type = .docker ∧ envVar = "GITHUB_PERSONAL_ACCESS_TOKEN" ∧
      strTruthy server.auth_config.github_token = false then
    [envVar ++ " is required for GitHub server"] else []) ++
  (if server.type = .query_api ∧ envVar = "QUERY_API_KEY" ∧
      strTruthy server.auth_config.query_api_key = false then
    [envVar ++ " is required for Supabase server"] else [])

/-- The errors pushed by the `required_env_vars.forEach` loop of
`validateServerConfig`. -/
def requiredEnvVarErrors (server : McpServerConfig) : List String :=
  (server.required_env_vars.map (envVarErrorsFor server)).flatten

/-- The `{valid, errors}` object returned by `validateServerConfig`. -/
structure ValidationResult where
  valid : Bool
  errors : List String
deriving DecidableEq

/-- The `errors` list accumulated by `validateServerConfig`, in source
push order. -/
def serverConfigErrors (server : McpServerConfig) : List String :=
  (if jsTrim server.name = "" then ["Server name is required"] else []) ++
  (if server.type = .docker ∧ strTruthy server.docker_image = false then
    ["Docker image is required for Docker-based servers"] else []) ++
  (if server.type = .query_api ∧ strTruthy server.server_url = false then
    ["Server URL is required for query API servers"] else []) ++
  (if server.type = .remote_pipedream ∧ strTruthy server.server_url = false then
    ["Server URL is required for Pipedream servers"] else []) ++
  (if server.type = .remote_pipedream ∧ strTruthy server.app_slug = false then
    ["App slug is required for Pipedream servers"] else []) ++
  requiredEnvVarErrors server

/-- Function `validateServerConfig`: collect configuration errors in source order
and report `valid` exactly when none were found. -/
def validateServerConfig (server : McpServerConfig) : ValidationResult :=
  { valid := (serverConfigErrors server).length == 0,
    errors := serverConfigErrors server }

/-- The conditions under which `validateServerConfig` reports at least
one error (note the environment-variable clauses cover only the two
special-cased variables). -/
def configInvalid (s : McpServerConfig) : Prop :=
  jsTrim s.name = "" ∨
  (s.type = .docker ∧ strTruthy s.docker_image = false) ∨
  (s.type = .query_api ∧ strTruthy s.server_url = false) ∨
  (s.type = .remote_pipedream ∧
    (strTruthy s.server_url = false ∨ strTruthy s.app_slug = false)) ∨
  (s.type = .docker ∧ "GITHUB_PERSONAL_ACCESS_TOKEN" ∈ s.required_env_vars ∧
    strTruthy s.auth_config.github_token = false) ∨
  (s.type = .query_api ∧ "QUERY_API_KEY" ∈ s.required_env_vars ∧
    strTruthy s.auth_config.query_api_key = false)

/- ### Tools store operations (`stores/useToolsStore.ts`) -/

/-- A `Partial<McpServerConfig>` update object: each present field
overrides the server's field under object spread. -/
structure McpServerUpdate where
  id : Option String := none
  name : Option String := none
  description : Option String := none
  type : Option McpServerType := none
  server_url : Option (Option String) := none
  docker_image : Option (Option String) := none
  app_slug : Option (Option String) := none
  enabled : Option Bool := none
  skip_approval : Option Bool := none
  allowed_tools : Option String := none
  auth_config : Option McpAuthConfig := none
  required_env_vars : Option (List String) := none
  optional_env_vars : Option (List String) := none
deriving DecidableEq

/-- JS spread merge of `server` and `updates`: fields present in `updates` win. -/
def applyUpdate (s : McpServerConfig) (u : McpServerUpdate) : McpServerConfig :=
  { id := u.id.getD s.id,
    name := u.name.getD s.name,
    description := u.description.getD s.description,
    type := u.type.getD s.type,
    server_url := u.server_url.getD s.server_url,
    docker_image := u.docker_image.getD s.docker_image,
    app_slug := u.app_slug.getD s.app_slug,
    enabled := u.enabled.getD s.enabled,
    skip_approval := u.skip_approval.getD s.skip_approval,
    allowed_tools := u.allowed_tools.getD s.allowed_tools,
    auth_config := u.auth_config.getD s.auth_config,
    required_env_vars := u.required_env_vars.getD s.required_env_vars,
    optional_env_vars := u.optional_env_vars.getD s.optional_env_vars }

/-- Function `updateMcpServer` on the store list `mcpServers`: map over the
list, merging the updates into the entry whose id matches. -/
def updateMcpServer (serverId : String) (updates : McpServerUpdate)
    (servers : List McpServerConfig) : List McpServerConfig :=
  servers.map (fun server =>
    if server.id = serverId then applyUpdate server updates else server)

/-- Function `toggleMcpServer`: map over the list, negating `enabled` on the
entry whose id matches. -/
def toggleMcpServer (serverId : String) (servers : List McpServerConfig) :
    List McpServerConfig :=
  servers.map (fun server =>
    if server.id = serverId then { server with enabled := !server.enabled } else server)

/-- A sample server record used to instantiate the store theorems. -/
def sampleServer : McpServerConfig :=
  { id := "github-official", name := "GitHub Official", type := .docker,
    enabled := false, skip_approval := false, allowed_tools := "",
    auth_config := {} }

/- ### Tool catalog builder (`lib/tools/tools.ts`) -/

/-- A vector store record; `getTools` reads only its `id`. -/
structure VectorStore where
  id : String
  name : String
deriving DecidableEq

/-- The optional approximate user location of the web-search config
(the constant `type: "approximate"` tag is omitted; each field may be
absent). -/
structure UserLocation where
  country : Option String := none
  city : Option String := none
  region : Option String := none
deriving DecidableEq

/-- Web search configuration. -/
structure WebSearchConfig where
  user_location : Option UserLocation := none
deriving DecidableEq

/-- Legacy single-server MCP configuration. -/
structure McpConfig where
  server_label : String
  server_url : String
  allowed_tools : String
  skip_approval : Bool
deriving DecidableEq

/-- One entry of the configured `toolsList` of user-defined functions:
name, description and the parameter properties (property name paired
with its opaque schema). -/
structure FunctionSpec where
  name : String
  description : String
  parameters : List (String × String)
deriving DecidableEq

/-- The `"mcp"`-typed tool descriptor built by `getTools`; absent object
keys are `none`.  Header values are optional strings because the
`X-App-Slug` header is bound to the server's (optional) `app_slug`. -/
structure McpToolDescriptor where
  server_label : String
  server_url : Option String := none
  docker_image : Option String := none
  env : Option (List (String × String)) := none
  headers : Option (List (String × Option String)) := none
  require_approval : Option String := none
  allowed_tools : Option (List String) := none
deriving DecidableEq

/-- A tool descriptor pushed by `getTools`, one constructor per
descriptor type.  `function name desc props req` stands for
`{type:"function", name, description, parameters:{type:"object",
properties, required, additionalProperties:false}, strict:true}`;
`codeInterpreter` for `{type:"code_interpreter",
container:{type:"auto"}}`. -/
inductive Tool where
  | webSearch (user_location : Option UserLocation)
  | fileSearch (vector_store_ids : List String)
  | codeInterpreter
  | function (name description : String) (properties : List (String × String))
      (required : List String)
  | mcp (t : McpToolDescriptor)
deriving DecidableEq

/-- The web-search branch of `getTools`: the `user_location` is attached
only when it is present and one of its fields is not the empty string
(JS `!==` is true for an absent field). -/
def webSearchTools (enabled : Bool) (cfg : WebSearchConfig) : List Tool :=
  if enabled then
    match cfg.user_location with
    | some loc =>
      if loc.country != some "" || loc.region != some "" || loc.city != some "" then
        [Tool.webSearch (some loc)]
      else [Tool.webSearch none]
    | none => [Tool.webSearch none]
  else []

/-- JS local `validVectorStoreIds`: the singleton of the vector store id
when it is present and truthy, else the empty list. -/
def validVectorStoreIds (vs : Option VectorStore) : List String :=
  match vs with
  | some v => if v.id != "" then [v.id] else []
  | none => []

/-- The file-search branch of `getTools`: the pushed tools together with
the console messages it prints (`console.log` on success, `console.warn`
when the tool is skipped). -/
def fileSearchTools (enabled : Bool) (vs : Option VectorStore) :
    List Tool × List String :=
  if enabled then
    if 0 < (validVectorStoreIds vs).length then
      ([Tool.fileSearch (validVectorStoreIds vs)],
       ["Added file search tool with vector store IDs:"])
    else
      ([], ["File search enabled but no valid vector store IDs found. Skipping file search tool."])
  else ([], [])

/-- The functions branch of `getTools`. -/
def functionTools (enabled : Bool) (toolsList : List FunctionSpec) : List Tool :=
  if enabled then
    toolsList.map (fun t =>
      Tool.function t.name t.description t.parameters (t.parameters.map Prod.fst))
  else []

/-- Parsing of `allowed_tools` shared by the legacy and multi-server MCP
branches: when the configured comma-string is non-blank, split on
commas, trim each entry and drop empties; otherwise the descriptor key
is absent. -/
def parseAllowedTools (s : String) : Option (List String) :=
  if jsTrim s != "" then
    some (((jsSplitComma s).map jsTrim).filter (fun t => t != ""))
  else none

/-- The legacy single-server MCP branch of `getTools`. -/
def legacyMcpTools (mcpEnabled : Bool) (cfg : McpConfig) : List Tool :=
  if mcpEnabled && cfg.server_url != "" && cfg.server_label != "" then
    [Tool.mcp { server_label := cfg.server_label,
                server_url := some cfg.server_url,
                require_approval := if cfg.skip_approval then some "never" else none,
                allowed_tools := parseAllowedTools cfg.allowed_tools }]
  else []

/-- The `env` map built for a docker server whose github token is
truthy. -/
def dockerEnv (a : McpAuthConfig) : List (String × String) :=
  [("GITHUB_PERSONAL_ACCESS_TOKEN", a.github_token.getD "")] ++
  (if strTruthy a.github_toolsets then
    [("GITHUB_TOOLSETS", a.github_toolsets.getD "")] else []) ++
  (match a.github_read_only with
   | some b => [("GITHUB_READ_ONLY", toString b)]
   | none => [])

/-- The `env` map built for a query-API server whose query API key is
truthy. -/
def queryEnv (a : McpAuthConfig) : List (String × String) :=
  [("QUERY_API_KEY", a.query_api_key.getD "")] ++
  (if strTruthy a.supabase_url then [("SUPABASE_URL", a.supabase_url.getD "")] else []) ++
  (if strTruthy a.supabase_anon_key then
    [("SUPABASE_ANON_KEY", a.supabase_anon_key.getD "")] else []) ++
  (if strTruthy a.supabase_service_role_key then
    [("SUPABASE_SERVICE_ROLE_KEY", a.supabase_service_role_key.getD "")] else [])

/-- The headers map built for a Pipedream server: the app-slug header,
an optional bearer token, then the configured custom headers (later
entries of the object literal override earlier ones on key clashes). -/
def pipedreamHeaders (s : McpServerConfig) : List (String × Option String) :=
  [("X-App-Slug", s.app_slug)] ++
  (if strTruthy s.auth_config.pipedream_api_key then
    [("Authorization", some ("Bearer " ++ s.auth_config.pipedream_api_key.getD ""))]
  else []) ++
  (s.auth_config.custom_headers.getD []).map (fun p => (p.1, some p.2))

/-- The descriptor built for one enabled server by the multi-server MCP
loop of `getTools`: the label, type-specific connection fields, and the
common approval / allowed-tools settings. -/
def mcpServerTool (s : McpServerConfig) : McpToolDescriptor :=
  let typed : McpToolDescriptor :=
    match s.type with
    | .docker =>
      { server_label := s.name,
        docker_image := s.docker_image,
        env := if strTruthy s.auth_config.github_token then
            some (dockerEnv s.auth_config) else none }
    | .query_api =>
      { server_label := s.name,
        server_url := s.server_url,
        env := if strTruthy s.auth_config.query_api_key then
            some (queryEnv s.auth_config) else none }
    | .remote_pipedream =>
      { server_label := s.name,
        server_url := s.server_url,
        headers := some (pipedreamHeaders s) }
  { typed with
    require_approval := if s.skip_approval then some "never" else none,
    allowed_tools := parseAllowedTools s.allowed_tools }

/-- The slice of the tools store state read by `getTools` (a single
`useToolsStore.getState()` call). -/
structure StoreState where
  webSearchEnabled : Bool
  fileSearchEnabled : Bool
  functionsEnabled : Bool
  codeInterpreterEnabled : Bool
  vectorStore : Option VectorStore
  webSearchConfig : WebSearchConfig
  mcpEnabled : Bool
  mcpConfig : McpConfig
  mcpServers : List McpServerConfig
deriving DecidableEq

/-- Function `getTools`: the ordered tool list assembled for a turn.  The
configured `toolsList` of user-defined functions lives in a config
module outside the store and is passed explicitly. -/
def getTools (toolsList : List FunctionSpec) (st : StoreState) : List Tool :=
  webSearchTools st.webSearchEnabled st.webSearchConfig ++
  (fileSearchTools st.fileSearchEnabled st.vectorStore).1 ++
  (if st.codeInterpreterEnabled then [Tool.codeInterpreter] else []) ++
  functionTools st.functionsEnabled toolsList ++
  legacyMcpTools st.mcpEnabled st.mcpConfig ++
  (getEnabledServers st.mcpServers).map (fun s => Tool.mcp (mcpServerTool s))

/-- Function `getTools` as a store transaction: the source reads the store once
via `getState()` and never writes it, so the store state passes through
unchanged. -/
def getToolsOp (toolsList : List FunctionSpec) (st : StoreState) :
    List Tool × StoreState :=
  (getTools toolsList st, st)

/-- Select the MCP descriptors of a tool list. -/
def toolMcp? : Tool → Option McpToolDescriptor
  | .mcp t => some t
  | _ => none

/-- Select the file-search descriptors of a tool list. -/
def toolFileSearch? : Tool → Option (List String)
  | .fileSearch ids => some ids
  | _ => none

/-- The Pipedream sample server of the default configuration, enabled. -/
def pipedreamServer : McpServerConfig :=
  { id := "outlook", name := "Microsoft Outlook", type := .remote_pipedream,
    server_url := some "https://remote.mcp.pipedream.net",
    app_slug := some "office365_mail",
    enabled := true, skip_approval := false, allowed_tools := "",
    auth_config := { pipedream_api_key := some "",
                     custom_headers := some [("X-App-Slug", "office365_mail")] } }

/-- A store state whose multi-server list holds the one enabled
Pipedream sample server. -/
def mcpSampleState : StoreState :=
  { webSearchEnabled := false, fileSearchEnabled := false, functionsEnabled := false,
    codeInterpreterEnabled := false, vectorStore := none, webSearchConfig := {},
    mcpEnabled := false,
    mcpConfig := { server_label := "", server_url := "", allowed_tools := "",
                   skip_approval := true },
    mcpServers := [pipedreamServer] }

/-- The Supabase sample server of the default configuration, enabled
with a configured allowed-tools string. -/
def supabaseServer : McpServerConfig :=
  { id := "supabase", name := "Supabase", type := .query_api,
    server_url := some "supabase-mcp-server",
    enabled := true, skip_approval := false, allowed_tools := "run_sql, list_tables",
    auth_config := { query_api_key := some "" } }

/-- A store state whose multi-server list holds the one enabled
Supabase sample server. -/
def mcpSampleState2 : StoreState :=
  { webSearchEnabled := false, fileSearchEnabled := false, functionsEnabled := false,
    codeInterpreterEnabled := false, vectorStore := none, webSearchConfig := {},
    mcpEnabled := false,
    mcpConfig := { server_label := "", server_url := "", allowed_tools := "",
                   skip_approval := true },
    mcpServers := [supabaseServer] }

/-- JS truthiness of `vectorStore?.id`. -/
def vsTruthy : Option VectorStore → Bool
  | none => false
  | some v => v.id != ""

/-- The id of the optional vector store (empty when absent). -/
def vsId : Option VectorStore → String
  | none => ""
  | some v => v.id

/-- A store state with file search enabled and no vector store. -/
def fsSampleState : StoreState :=
  { webSearchEnabled := false, fileSearchEnabled := true, functionsEnabled := false,
    codeInterpreterEnabled := false, vectorStore := none, webSearchConfig := {},
    mcpEnabled := false,
    mcpConfig := { server_label := "", server_url := "", allowed_tools := "",
                   skip_approval := true },
    mcpServers := [] }

/- ### Approval gate (spec §4.4 / §6.3) -/

/-- Modelled from the spec: the decision state of an approval request
(`pending → approved` or `pending → declined`; no other transitions). -/
inductive Decision where
  | pending
  | approved
  | declined
deriving DecidableEq

/-- Modelled from the spec: an approval request for a gated tool call
(call id, owning server label, tool name, reconstructed arguments). -/
structure ApprovalRequest where
  callId : String
  serverLabel : String
  toolName : String
  arguments : String
deriving DecidableEq

/-- Modelled from the spec: `resolveApproval(callId, approved)` over the
gate's request set (here a list of request/decision pairs keyed by call
id).  A pending request transitions to its resolved state and is
returned for downstream dispatch; a decision for an already-resolved or
absent call id is a no-op returning no request (so no dispatch occurs).
The implementation of this entry point (the assistant library) is not
among the provided sources; only its UI caller is. -/
def resolveApproval (requests : List (ApprovalRequest × Decision))
    (callId : String) (approve : Bool) :
    List (ApprovalRequest × Decision) × Option ApprovalRequest :=
  match requests.find? (fun p => p.1.callId == callId) with
  | none => (requests, none)
  | some (req, d) =>
    if d = .pending then
      (requests.map (fun p =>
        if p.1.callId == callId then
          (p.1, if approve then Decision.approved else Decision.declined)
        else p),
       some req)
    else (requests, none)

/-- C1 (counterexample): an upstream event whose `type` matches none of
the recognized discriminants but which carries a truthy `delta` field is
re-emitted under the event name `response.output_text.delta`, not under
its own type, so the claimed verbatim passthrough for unrecognized
discriminants fails. -/
theorem translator_delta_catchall_breaks_passthrough :
    recognizedDiscriminant "response.custom" = false ∧
    (translateEvent 0 { type := "response.custom", delta := some "hi" }).event ≠
      "response.custom" ∧
    (translateEvent 0 { type := "response.custom", delta := some "hi" }).event =
      "response.output_text.delta" := by
  refine ⟨by decide, by decide, by decide⟩

/-- C1 (amended): every upstream event consumed on the first route's
streaming path yields exactly one SSE frame (one frame per event plus
the sentinel), and an event whose type matches none of the recognized
discriminants and whose `delta` and `text` payload fields are both
absent or empty is forwarded verbatim: the frame's event name is the
upstream type and its data is the upstream event unchanged. -/
theorem translator_unrecognized_passthrough (now : Nat)
    (events : List StreamEvent) (e : StreamEvent)
    (hrec : recognizedDiscriminant e.type = false)
    (hd : strTruthy e.delta = false) (ht : strTruthy e.text = false) :
    translateEvent now e = ⟨e.type, .raw e⟩ ∧
    (route1Stream now events).length = events.length + 1 := by
  have h := hrec
  simp only [recognizedDiscriminant, Bool.or_eq_false_iff] at h
  obtain ⟨⟨⟨⟨⟨⟨⟨h1, h2⟩, h3⟩, h4⟩, h5⟩, h6⟩, h7⟩, h8⟩ := h
  refine ⟨?_, ?_⟩
  · simp [translateEvent, h1, h2, h3, h4, h5, h6, h7, h8, hd, ht]
  · simp [route1Stream]

theorem translator_unrecognized_passthrough_witness :
    translateEvent 0 { type := "response.unknown_kind" } =
      ⟨"response.unknown_kind", .raw { type := "response.unknown_kind" }⟩ ∧
    (route1Stream 0 [{ type := "response.unknown_kind" }]).length = 1 + 1 :=
  translator_unrecognized_passthrough 0 [{ type := "response.unknown_kind" }]
    { type := "response.unknown_kind" } (by decide) (by decide) (by decide)

/-- C2 (counterexample): on the second turn-route variant the successful
streaming path closes the stream without ever enqueueing the
`data: [DONE]` sentinel, so the response does not end with the sentinel
frame. -/
theorem route2_stream_lacks_sentinel :
    route2Stream [{ type := "response.completed" }] =
      [SSEItem.frame ⟨"response.completed", .raw { type := "response.completed" }⟩] ∧
    (route2Stream [{ type := "response.completed" }]).getLast? ≠ some SSEItem.done := by
  refine ⟨by decide, by decide⟩

/-- C2 (amended): on the first turn route the successful streaming path
emits all event frames followed by the `[DONE]` sentinel as its last
item, and the request-level error path ends with the sentinel after the
error frame; the mid-stream error path instead ends with an error frame
and no sentinel, and the second route variant never emits the
sentinel. -/
theorem sentinel_termination_paths (now : Nat)
    (events processed : List StreamEvent) (msg : String) :
    route1Stream now events =
      events.map (fun e => SSEItem.frame (translateEvent now e)) ++ [SSEItem.done] ∧
    (route1Stream now events).getLast? = some SSEItem.done ∧
    (route1RequestError msg).getLast? = some SSEItem.done ∧
    (route1MidStreamError now processed msg).getLast? =
      some (SSEItem.frame ⟨"error", .errorData "Streaming failed" msg⟩) ∧
    SSEItem.done ∉ route2Stream events := by
  refine ⟨rfl, ?_, rfl, ?_, ?_⟩
  · simp [route1Stream, List.getLast?_concat]
  · simp [route1MidStreamError, List.getLast?_concat]
  · simp [route2Stream]

/-- C3 (counterexample): for a `response.failed` upstream event whose
error message is present but empty, the emitted details string is the
generic fallback `"Unknown error"`, not the (present) upstream message. -/
theorem failed_event_empty_message_fallback :
    ({ type := "response.failed", error := some ⟨some ""⟩ } : StreamEvent).error.bind
      UpstreamError.message = some "" ∧
    translateEvent 0 { type := "response.failed", error := some ⟨some ""⟩ } =
      ⟨"error", .errorData "Response failed" "Unknown error"⟩ ∧
    "Unknown error" ≠ ("" : String) := by
  refine ⟨rfl, by decide, by decide⟩

/-- C3 (amended): a `response.failed` upstream event always yields a
frame with event name `error` whose details are `failedDetails`; when
the upstream error message is present and non-empty the details equal
that message, and the details string is never empty. -/
theorem failed_event_error_frame (now : Nat) (e : StreamEvent) (m : String)
    (h : e.type = "response.failed")
    (hm : e.error.bind UpstreamError.message = some m) (hne : m ≠ "") :
    translateEvent now e = ⟨"error", .errorData "Response failed" (failedDetails e)⟩ ∧
    failedDetails e = m ∧ failedDetails e ≠ "" := by
  have hdet : failedDetails e = m := by
    rcases herr : e.error with _ | err
    · rw [herr] at hm; simp at hm
    · rw [herr] at hm
      replace hm : err.message = some m := hm
      rcases hmsg : err.message with _ | m2
      · rw [hmsg] at hm; cases hm
      · rw [hmsg] at hm
        injection hm with hm2
        subst hm2
        simp [failedDetails, herr, hmsg, hne]
  refine ⟨?_, hdet, hdet ▸ hne⟩
  have h1 : ("response.failed" == "response.output_item.added") = false := by decide
  have h2 : ("response.failed" == "response.output_item.done") = false := by decide
  have h3 : ("response.failed" == "response.content_part.added") = false := by decide
  have h4 : ("response.failed" == "response.content_part.done") = false := by decide
  have h5 : jsStartsWith "response.failed" "response.reasoning" = false := by decide
  have h6 : jsStartsWith "response.failed" "response.function_call" = false := by decide
  have h7 : ("response.failed" == "response.completed") = false := by decide
  have h8 : ("response.failed" == "response.failed") = true := by decide
  simp [translateEvent, h, h1, h2, h3, h4, h5, h6, h7, h8]

lemma ite_singleton_eq_nil {c : Prop} [Decidable c] (msg : String) :
    ((if c then [msg] else ([] : List String)) = []) ↔ ¬ c := by
  by_cases h : c <;> simp [h]

lemma requiredEnvVarErrors_eq_nil (s : McpServerConfig) :
    requiredEnvVarErrors s = [] ↔
      (¬(s.type = .docker ∧ "GITHUB_PERSONAL_ACCESS_TOKEN" ∈ s.required_env_vars ∧
          strTruthy s.auth_config.github_token = false) ∧
       ¬(s.type = .query_api ∧ "QUERY_API_KEY" ∈ s.required_env_vars ∧
          strTruthy s.auth_config.query_api_key = false)) := by
  unfold requiredEnvVarErrors
  rw [List.flatten_eq_nil_iff]
  constructor
  · intro h
    constructor
    · rintro ⟨hd, hmem, htok⟩
      have h2 := h _ (List.mem_map_of_mem (envVarErrorsFor s) hmem)
      unfold envVarErrorsFor at h2
      obtain ⟨ha, -⟩ := List.append_eq_nil.mp h2
      rw [ite_singleton_eq_nil] at ha
      exact ha ⟨hd, rfl, htok⟩
    · rintro ⟨hq, hmem, hkey⟩
      have h2 := h _ (List.mem_map_of_mem (envVarErrorsFor s) hmem)
      unfold envVarErrorsFor at h2
      obtain ⟨-, hb⟩ := List.append_eq_nil.mp h2
      rw [ite_singleton_eq_nil] at hb
      exact hb ⟨hq, rfl, hkey⟩
  · rintro ⟨h1, h2⟩ l hl
    obtain ⟨v, hv, rfl⟩ := List.mem_map.mp hl
    unfold envVarErrorsFor
    rw [List.append_eq_nil, ite_singleton_eq_nil, ite_singleton_eq_nil]
    constructor
    · rintro ⟨hd, rfl, htok⟩
      exact absurd ⟨hd, hv, htok⟩ h1
    · rintro ⟨hq, rfl, hkey⟩
      exact absurd ⟨hq, hv, hkey⟩ h2

/-- C8 (counterexample): a well-formed docker server that lists a
required environment variable other than the two special-cased ones
(here `PIPEDREAM_API_KEY`) with no corresponding `auth_config` value is
reported as valid with an empty error list, contradicting the claimed
"a listed required environment variable has no corresponding
auth_config value" error clause. -/
theorem validateServerConfig_ignores_generic_env_vars :
    (validateServerConfig
      { id := "github-official", name := "GitHub Official", type := .docker,
        docker_image := some "ghcr.io/github/github-mcp-server",
        enabled := false, skip_approval := false, allowed_tools := "",
        auth_config := {},
        required_env_vars := ["PIPEDREAM_API_KEY"] }).errors = [] ∧
    (validateServerConfig
      { id := "github-official", name := "GitHub Official", type := .docker,
        docker_image := some "ghcr.io/github/github-mcp-server",
        enabled := false, skip_approval := false, allowed_tools := "",
        auth_config := {},
        required_env_vars := ["PIPEDREAM_API_KEY"] }).valid = true := by
  refine ⟨by decide, by decide⟩

/-- C8 (amended): `validateServerConfig` never throws (it is a total
function), reports `valid = true` exactly when its error list is empty,
and the error list is non-empty precisely when the server name is blank
after trimming, a docker server has a missing or empty docker image, a
query-API server has a missing or empty server URL, a Pipedream server
has a missing or empty server URL or app slug, a docker server lists
`GITHUB_PERSONAL_ACCESS_TOKEN` with no github token configured, or a
query-API server lists `QUERY_API_KEY` with no query API key
configured. -/
theorem validateServerConfig_valid_iff (s : McpServerConfig) :
    ((validateServerConfig s).valid = true ↔ (validateServerConfig s).errors = []) ∧
    ((validateServerConfig s).errors ≠ [] ↔ configInvalid s) := by
  have herrs : (validateServerConfig s).errors = [] ↔ ¬ configInvalid s := by
    show serverConfigErrors s = [] ↔ ¬ configInvalid s
    unfold serverConfigErrors
    rw [List.append_eq_nil, List.append_eq_nil, List.append_eq_nil, List.append_eq_nil,
      List.append_eq_nil, ite_singleton_eq_nil, ite_singleton_eq_nil, ite_singleton_eq_nil,
      ite_singleton_eq_nil, ite_singleton_eq_nil, requiredEnvVarErrors_eq_nil]
    unfold configInvalid
    push_neg
    tauto
  refine ⟨?_, ?_⟩
  · simp [validateServerConfig, List.length_eq_zero]
  · rw [ne_eq, herrs, not_not]

theorem failed_event_error_frame_witness :
    translateEvent 0 { type := "response.failed", error := some ⟨some "boom"⟩ } =
      ⟨"error", .errorData "Response failed"
        (failedDetails { type := "response.failed", error := some ⟨some "boom"⟩ })⟩ ∧
    failedDetails { type := "response.failed", error := some ⟨some "boom"⟩ } = "boom" ∧
    failedDetails { type := "response.failed", error := some ⟨some "boom"⟩ } ≠ "" :=
  failed_event_error_frame 0 { type := "response.failed", error := some ⟨some "boom"⟩ }
    "boom" rfl rfl (by decide)

lemma toggleMcpServer_involutive (serverId : String) (servers : List McpServerConfig) :
    toggleMcpServer serverId (toggleMcpServer serverId servers) = servers := by
  unfold toggleMcpServer
  rw [List.map_map]
  apply List.map_id''
  intro s
  obtain ⟨sid, sname, sdesc, sty, surl, simg, sslug, sen, sskip, sallowed, sauth, sreq,
    sopt⟩ := s
  by_cases hc : sid = serverId
  · simp [Function.comp, hc, Bool.not_not]
  · simp [Function.comp, hc]

/-- C10: `updateMcpServer` and `toggleMcpServer` preserve the length and
order of the server list and leave every entry with a different id
untouched, and toggling the same id twice restores the original list. -/
theorem store_update_toggle_frame (servers : List McpServerConfig)
    (serverId : String) (updates : McpServerUpdate) (i : Nat) (s : McpServerConfig)
    (hi : servers.get? i = some s) (hid : s.id ≠ serverId) :
    (updateMcpServer serverId updates servers).length = servers.length ∧
    (toggleMcpServer serverId servers).length = servers.length ∧
    (updateMcpServer serverId updates servers).get? i = some s ∧
    (toggleMcpServer serverId servers).get? i = some s ∧
    toggleMcpServer serverId (toggleMcpServer serverId servers) = servers := by
  refine ⟨by simp [updateMcpServer], by simp [toggleMcpServer], ?_, ?_,
    toggleMcpServer_involutive serverId servers⟩
  · rw [updateMcpServer, List.get?_map, hi]
    simp [hid]
  · rw [toggleMcpServer, List.get?_map, hi]
    simp [hid]

theorem store_update_toggle_frame_witness :
    (updateMcpServer "supabase" {} [sampleServer]).length = [sampleServer].length ∧
    (toggleMcpServer "supabase" [sampleServer]).length = [sampleServer].length ∧
    (updateMcpServer "supabase" {} [sampleServer]).get? 0 = some sampleServer ∧
    (toggleMcpServer "supabase" [sampleServer]).get? 0 = some sampleServer ∧
    toggleMcpServer "supabase" (toggleMcpServer "supabase" [sampleServer]) =
      [sampleServer] :=
  store_update_toggle_frame [sampleServer] "supabase" {} 0 sampleServer rfl (by decide)

lemma webSearchTools_no_mcp (b : Bool) (cfg : WebSearchConfig) :
    (webSearchTools b cfg).filterMap toolMcp? = [] := by
  unfold webSearchTools
  repeat' split
  all_goals rfl

lemma fileSearchTools_no_mcp (b : Bool) (vs : Option VectorStore) :
    (fileSearchTools b vs).1.filterMap toolMcp? = [] := by
  unfold fileSearchTools
  repeat' split
  all_goals rfl

lemma codeTools_no_mcp (b : Bool) :
    ((if b then [Tool.codeInterpreter] else []) : List Tool).filterMap toolMcp? = [] := by
  split <;> rfl

lemma functionTools_no_mcp (b : Bool) (tl : List FunctionSpec) :
    (functionTools b tl).filterMap toolMcp? = [] := by
  unfold functionTools
  split
  · rw [List.filterMap_map]
    exact List.filterMap_eq_nil_iff.mpr (fun a _ => rfl)
  · rfl

lemma filterMap_toolMcp_map (l : List McpServerConfig) :
    (l.map (fun s => Tool.mcp (mcpServerTool s))).filterMap toolMcp? =
      l.map mcpServerTool := by
  induction l with
  | nil => rfl
  | cons a t ih => simp [toolMcp?, ih]

lemma getTools_filterMap_mcp (tl : List FunctionSpec) (st : StoreState) :
    (getTools tl st).filterMap toolMcp? =
      (legacyMcpTools st.mcpEnabled st.mcpConfig).filterMap toolMcp? ++
        (getEnabledServers st.mcpServers).map mcpServerTool := by
  unfold getTools
  rw [List.filterMap_append, List.filterMap_append, List.filterMap_append,
    List.filterMap_append, List.filterMap_append,
    webSearchTools_no_mcp, fileSearchTools_no_mcp, codeTools_no_mcp,
    functionTools_no_mcp, filterMap_toolMcp_map]
  simp

/-- C4: the tool list's MCP descriptors decompose into the legacy
descriptor followed by exactly one descriptor per enabled server of the
multi-server list (so disabled servers contribute none); the descriptor
of each server carries the server's name as its label and
connection fields determined by the declared type: docker image and a
token-guarded env map for docker servers, the server URL (and key-guarded
env) for query-API servers, and the server URL plus the app-scoped
headers map for Pipedream servers. -/
theorem mcp_loop_descriptors (tl : List FunctionSpec) (st : StoreState)
    (s : McpServerConfig) (hs : s ∈ st.mcpServers) (he : s.enabled = true) :
    (getTools tl st).filterMap toolMcp? =
      (legacyMcpTools st.mcpEnabled st.mcpConfig).filterMap toolMcp? ++
        (st.mcpServers.filter (fun c => c.enabled)).map mcpServerTool ∧
    mcpServerTool s ∈ (getTools tl st).filterMap toolMcp? ∧
    (mcpServerTool s).server_label = s.name ∧
    (s.type = .docker →
      (mcpServerTool s).docker_image = s.docker_image ∧
      (mcpServerTool s).env =
        (if strTruthy s.auth_config.github_token then some (dockerEnv s.auth_config)
         else none) ∧
      (mcpServerTool s).server_url = none) ∧
    (s.type = .query_api →
      (mcpServerTool s).server_url = s.server_url ∧
      (mcpServerTool s).env =
        (if strTruthy s.auth_config.query_api_key then some (queryEnv s.auth_config)
         else none) ∧
      (mcpServerTool s).docker_image = none) ∧
    (s.type = .remote_pipedream →
      (mcpServerTool s).server_url = s.server_url ∧
      (mcpServerTool s).headers = some (pipedreamHeaders s)) := by
  refine ⟨getTools_filterMap_mcp tl st, ?_, ?_, ?_, ?_, ?_⟩
  · rw [getTools_filterMap_mcp]
    exact List.mem_append_right _
      (List.mem_map_of_mem _ (List.mem_filter.mpr ⟨hs, he⟩))
  · cases hty : s.type <;> simp [mcpServerTool, hty]
  · intro hty; simp [mcpServerTool, hty]
  · intro hty; simp [mcpServerTool, hty]
  · intro hty; simp [mcpServerTool, hty]

theorem mcp_loop_descriptors_witness :
    (getTools [] mcpSampleState).filterMap toolMcp? =
      (legacyMcpTools mcpSampleState.mcpEnabled mcpSampleState.mcpConfig).filterMap
        toolMcp? ++
        (mcpSampleState.mcpServers.filter (fun c => c.enabled)).map mcpServerTool ∧
    mcpServerTool pipedreamServer ∈ (getTools [] mcpSampleState).filterMap toolMcp? ∧
    (mcpServerTool pipedreamServer).server_label = pipedreamServer.name ∧
    (pipedreamServer.type = .docker →
      (mcpServerTool pipedreamServer).docker_image = pipedreamServer.docker_image ∧
      (mcpServerTool pipedreamServer).env =
        (if strTruthy pipedreamServer.auth_config.github_token then
          some (dockerEnv pipedreamServer.auth_config) else none) ∧
      (mcpServerTool pipedreamServer).server_url = none) ∧
    (pipedreamServer.type = .query_api →
      (mcpServerTool pipedreamServer).server_url = pipedreamServer.server_url ∧
      (mcpServerTool pipedreamServer).env =
        (if strTruthy pipedreamServer.auth_config.query_api_key then
          some (queryEnv pipedreamServer.auth_config) else none) ∧
      (mcpServerTool pipedreamServer).docker_image = none) ∧
    (pipedreamServer.type = .remote_pipedream →
      (mcpServerTool pipedreamServer).server_url = pipedreamServer.server_url ∧
      (mcpServerTool pipedreamServer).headers = some (pipedreamHeaders pipedreamServer)) :=
  mcp_loop_descriptors [] mcpSampleState pipedreamServer
    (List.mem_singleton.mpr rfl) rfl

/-- C5: each enabled server's descriptor actually appears in the tool
list, its approval-requirement field is `"never"` exactly when the
server's `skip_approval` flag is set (absent otherwise), and its
allowed-tool filter is exactly the list denoted by the server's
configured comma-string: absent when the string is blank, else the
comma-split, trimmed, empty-dropped name list. -/
theorem mcp_descriptor_settings (tl : List FunctionSpec) (st : StoreState)
    (s : McpServerConfig) (hs : s ∈ st.mcpServers) (he : s.enabled = true) :
    Tool.mcp (mcpServerTool s) ∈ getTools tl st ∧
    (mcpServerTool s).require_approval =
      (if s.skip_approval then some "never" else none) ∧
    (mcpServerTool s).allowed_tools = parseAllowedTools s.allowed_tools ∧
    (jsTrim s.allowed_tools = "" → (mcpServerTool s).allowed_tools = none) ∧
    (jsTrim s.allowed_tools ≠ "" →
      (mcpServerTool s).allowed_tools =
        some (((jsSplitComma s.allowed_tools).map jsTrim).filter (fun t => t != ""))) := by
  have hmem : mcpServerTool s ∈ (getTools tl st).filterMap toolMcp? := by
    rw [getTools_filterMap_mcp]
    exact List.mem_append_right _
      (List.mem_map_of_mem _ (List.mem_filter.mpr ⟨hs, he⟩))
  refine ⟨?_, ?_, ?_, ?_, ?_⟩
  · obtain ⟨t, ht, hts⟩ := List.mem_filterMap.mp hmem
    cases t <;> simp [toolMcp?] at hts
    exact hts ▸ ht
  · cases hty : s.type <;> simp [mcpServerTool, hty]
  · cases hty : s.type <;> simp [mcpServerTool, hty]
  · intro h0
    cases hty : s.type <;> simp [mcpServerTool, hty, parseAllowedTools, h0]
  · intro h0
    cases hty : s.type <;> simp [mcpServerTool, hty, parseAllowedTools, h0]

theorem mcp_descriptor_settings_witness :
    Tool.mcp (mcpServerTool supabaseServer) ∈ getTools [] mcpSampleState2 ∧
    (mcpServerTool supabaseServer).require_approval =
      (if supabaseServer.skip_approval then some "never" else none) ∧
    (mcpServerTool supabaseServer).allowed_tools =
      parseAllowedTools supabaseServer.allowed_tools ∧
    (jsTrim supabaseServer.allowed_tools = "" →
      (mcpServerTool supabaseServer).allowed_tools = none) ∧
    (jsTrim supabaseServer.allowed_tools ≠ "" →
      (mcpServerTool supabaseServer).allowed_tools =
        some (((jsSplitComma supabaseServer.allowed_tools).map jsTrim).filter
          (fun t => t != ""))) :=
  mcp_descriptor_settings [] mcpSampleState2 supabaseServer
    (List.mem_singleton.mpr rfl) rfl

lemma webSearchTools_no_fileSearch (b : Bool) (cfg : WebSearchConfig) :
    (webSearchTools b cfg).filterMap toolFileSearch? = [] := by
  unfold webSearchTools
  repeat' split
  all_goals rfl

lemma codeTools_no_fileSearch (b : Bool) :
    ((if b then [Tool.codeInterpreter] else []) : List Tool).filterMap
      toolFileSearch? = [] := by
  split <;> rfl

lemma functionTools_no_fileSearch (b : Bool) (tl : List FunctionSpec) :
    (functionTools b tl).filterMap toolFileSearch? = [] := by
  unfold functionTools
  split
  · rw [List.filterMap_map]
    exact List.filterMap_eq_nil_iff.mpr (fun a _ => rfl)
  · rfl

lemma legacyMcpTools_no_fileSearch (b : Bool) (cfg : McpConfig) :
    (legacyMcpTools b cfg).filterMap toolFileSearch? = [] := by
  unfold legacyMcpTools
  split <;> rfl

lemma mapMcp_no_fileSearch (l : List McpServerConfig) :
    ((l.map (fun s => Tool.mcp (mcpServerTool s))).filterMap toolFileSearch?) = [] := by
  rw [List.filterMap_map]
  exact List.filterMap_eq_nil_iff.mpr (fun a _ => rfl)

lemma getTools_filterMap_fileSearch (tl : List FunctionSpec) (st : StoreState) :
    (getTools tl st).filterMap toolFileSearch? =
      (fileSearchTools st.fileSearchEnabled st.vectorStore).1.filterMap
        toolFileSearch? := by
  unfold getTools
  rw [List.filterMap_append, List.filterMap_append, List.filterMap_append,
    List.filterMap_append, List.filterMap_append,
    webSearchTools_no_fileSearch, codeTools_no_fileSearch,
    functionTools_no_fileSearch, legacyMcpTools_no_fileSearch, mapMcp_no_fileSearch]
  simp

lemma validVectorStoreIds_eq (vs : Option VectorStore) :
    validVectorStoreIds vs = if vsTruthy vs then [vsId vs] else [] := by
  cases vs with
  | none => rfl
  | some v =>
    by_cases hid : v.id != "" <;> simp [validVectorStoreIds, vsTruthy, vsId, hid]

/-- C6: with the file-search flag set, the tool list contains a
file-search descriptor exactly when the backing vector store id is
present and non-empty (and then it is the well-formed singleton id
list); when the id is absent or empty no file-search descriptor of any
shape appears and the skip diagnostic is logged. -/
theorem file_search_inclusion (tl : List FunctionSpec) (st : StoreState)
    (h : st.fileSearchEnabled = true) :
    ((getTools tl st).filterMap toolFileSearch? =
      if vsTruthy st.vectorStore then [[vsId st.vectorStore]] else []) ∧
    (vsTruthy st.vectorStore = false →
      (getTools tl st).filterMap toolFileSearch? = [] ∧
      "File search enabled but no valid vector store IDs found. Skipping file search tool."
        ∈ (fileSearchTools st.fileSearchEnabled st.vectorStore).2) := by
  have hdec := getTools_filterMap_fileSearch tl st
  by_cases hv : vsTruthy st.vectorStore = true
  · constructor
    · rw [hdec]
      simp [fileSearchTools, h, validVectorStoreIds_eq, hv, toolFileSearch?]
    · intro hvf
      rw [hv] at hvf
      cases hvf
  · have hv' : vsTruthy st.vectorStore = false := by
      cases hvb : vsTruthy st.vectorStore
      · rfl
      · exact absurd hvb hv
    constructor
    · rw [hdec]
      simp [fileSearchTools, h, validVectorStoreIds_eq, hv']
    · intro _
      constructor
      · rw [hdec]
        simp [fileSearchTools, h, validVectorStoreIds_eq, hv']
      · simp [fileSearchTools, h, validVectorStoreIds_eq, hv']

theorem file_search_inclusion_witness :
    ((getTools [] fsSampleState).filterMap toolFileSearch? =
      if vsTruthy fsSampleState.vectorStore then [[vsId fsSampleState.vectorStore]]
      else []) ∧
    (vsTruthy fsSampleState.vectorStore = false →
      (getTools [] fsSampleState).filterMap toolFileSearch? = [] ∧
      "File search enabled but no valid vector store IDs found. Skipping file search tool."
        ∈ (fileSearchTools fsSampleState.fileSearchEnabled
            fsSampleState.vectorStore).2) :=
  file_search_inclusion [] fsSampleState rfl

/-- C9: the catalog builder is a pure transformation of the
configuration state: as a store transaction it returns the store state
unchanged (the source performs a single `getState()` read and no write),
so a second run in the resulting state returns the same tool list. -/
theorem getTools_pure (tl : List FunctionSpec) (st : StoreState) :
    (getToolsOp tl st).2 = st ∧
    (getToolsOp tl (getToolsOp tl st).2).1 = (getToolsOp tl st).1 :=
  ⟨rfl, rfl⟩

/-- C7: resolving a pending approval twice performs the transition and
returns the request for dispatch exactly once: the first call returns
the request, the second call returns no request and leaves the gate
state unchanged. -/
theorem resolveApproval_idempotent (requests : List (ApprovalRequest × Decision))
    (callId : String) (req : ApprovalRequest)
    (h : requests.find? (fun p => p.1.callId == callId) = some (req, .pending)) :
    (resolveApproval requests callId true).2 = some req ∧
    (resolveApproval (resolveApproval requests callId true).1 callId true).2 = none ∧
    (resolveApproval (resolveApproval requests callId true).1 callId true).1 =
      (resolveApproval requests callId true).1 := by
  have hp : (req.callId == callId) = true := by
    simpa using List.find?_some h
  have h1 : resolveApproval requests callId true =
      (requests.map (fun p =>
        if p.1.callId == callId then (p.1, Decision.approved) else p),
       some req) := by
    unfold resolveApproval
    rw [h]
    simp
  have hfind : (requests.map (fun p =>
      if p.1.callId == callId then (p.1, Decision.approved) else p)).find?
        (fun p => p.1.callId == callId) = some (req, Decision.approved) := by
    rw [List.find?_map]
    have hcomp : ((fun p : ApprovalRequest × Decision => p.1.callId == callId) ∘
        (fun p : ApprovalRequest × Decision =>
          if p.1.callId == callId then (p.1, Decision.approved) else p)) =
        (fun p : ApprovalRequest × Decision => p.1.callId == callId) := by
      funext p
      by_cases hc : p.1.callId = callId <;> simp [hc]
    rw [hcomp, h]
    simp [hp]
    exact eq_of_beq hp
  have h2 : resolveApproval
      (requests.map (fun p =>
        if p.1.callId == callId then (p.1, Decision.approved) else p)) callId true =
      (requests.map (fun p =>
        if p.1.callId == callId then (p.1, Decision.approved) else p), none) := by
    unfold resolveApproval
    rw [hfind]
    simp
  refine ⟨by rw [h1], ?_, ?_⟩
  · rw [h1, h2]
  · rw [h1, h2]

theorem resolveApproval_idempotent_witness :
    (resolveApproval [(⟨"call_1", "Supabase", "run_sql", "null"⟩, Decision.pending)]
      "call_1" true).2 = some ⟨"call_1", "Supabase", "run_sql", "null"⟩ ∧
    (resolveApproval
      (resolveApproval [(⟨"call_1", "Supabase", "run_sql", "null"⟩, Decision.pending)]
        "call_1" true).1 "call_1" true).2 = none ∧
    (resolveApproval
      (resolveApproval [(⟨"call_1", "Supabase", "run_sql", "null"⟩, Decision.pending)]
        "call_1" true).1 "call_1" true).1 =
      (resolveApproval [(⟨"call_1", "Supabase", "run_sql", "null"⟩, Decision.pending)]
        "call_1" true).1 :=
  resolveApproval_idempotent
    [(⟨"call_1", "Supabase", "run_sql", "null"⟩, Decision.pending)]
    "call_1" ⟨"call_1", "Supabase", "run_sql", "null"⟩ (by decide)

